import Mathlib

/-!
Verification of the medi-clock shift-clock core: the Haversine distance
calculator and perimeter validator (src/utils/location.ts), the clock-in /
clock-out shift ledger (src/lib/graphql/resolvers.ts), and the client-side
geofence tracker (LocationTracker).  Real-number arithmetic stands in for
JavaScript floats; timestamps are integers (milliseconds); `totalHours` is a
rational computed with the source's round-to-2-decimals formula.
-/

namespace MediClock

/-! ## Geometry: src/utils/location.ts -/

/-- JavaScript `Math.atan2(y, x)` on the reals. -/
noncomputable def atan2 (y x : ℝ) : ℝ :=
  if 0 < x then Real.arctan (y / x)
  else if x < 0 then
    (if 0 ≤ y then Real.arctan (y / x) + Real.pi else Real.arctan (y / x) - Real.pi)
  else
    (if 0 < y then Real.pi / 2 else if y < 0 then -(Real.pi / 2) else 0)

/-- `calculateDistance` from src/utils/location.ts: Haversine distance in
meters on a sphere of radius 6 371 000 m. -/
noncomputable def calculateDistance (lat1 lng1 lat2 lng2 : ℝ) : ℝ :=
  let R : ℝ := 6371000
  let phi1 := lat1 * Real.pi / 180
  let phi2 := lat2 * Real.pi / 180
  let dphi := (lat2 - lat1) * Real.pi / 180
  let dlam := (lng2 - lng1) * Real.pi / 180
  let a := Real.sin (dphi / 2) * Real.sin (dphi / 2) +
      Real.cos phi1 * Real.cos phi2 * Real.sin (dlam / 2) * Real.sin (dlam / 2)
  let c := 2 * atan2 (Real.sqrt a) (Real.sqrt (1 - a))
  R * c

/-- `isWithinPerimeter` from src/utils/location.ts: distance from the user to
the facility compared (inclusively) against the perimeter radius. -/
def isWithinPerimeter (userLat userLng facilityLat facilityLng perimeterRadius : ℝ) : Prop :=
  calculateDistance userLat userLng facilityLat facilityLng ≤ perimeterRadius

open Classical

/-! ## Data model (prisma schema / GraphQL typeDefs) -/

inductive UserRole
  | MANAGER
  | CARE_WORKER
deriving DecidableEq, Repr

structure Organization where
  id : ℕ
  name : String
  locationLat : ℝ
  locationLng : ℝ
  perimeterRadius : ℝ

structure User where
  id : ℕ
  auth0Id : String
  role : UserRole
  organizationId : Option ℕ

structure Shift where
  id : ℕ
  userId : ℕ
  clockInTime : ℤ
  clockInLat : ℝ
  clockInLng : ℝ
  clockInNote : Option String
  clockOutTime : Option ℤ
  clockOutLat : Option ℝ
  clockOutLng : Option ℝ
  clockOutNote : Option String
  totalHours : Option ℚ

/-- The record store the resolvers read and write through prisma. -/
structure DB where
  users : List User
  organizations : List Organization
  shifts : List Shift
  nextShiftId : ℕ

/-- The typed failures thrown by the resolvers. -/
inductive ClockError
  | userNotFound
  | notCareWorker
  | alreadyClockedIn
  | organizationNotFound
  | outsidePerimeter
  | noActiveShift
  | notManager
  | noOrganizationAssigned
  | recordNotFound
  | nullOrganizationAccess
deriving DecidableEq, Repr

/-! ## Shift ledger: src/lib/graphql/resolvers.ts -/

/-- JavaScript `Math.round`: nearest integer, half away from zero upward. -/
def jsRound (q : ℚ) : ℤ := ⌊q + 1 / 2⌋

/-- Round to 2 decimal places, as `Math.round(x * 100) / 100`. -/
def round2 (q : ℚ) : ℚ := (jsRound (q * 100) : ℚ) / 100

/-- `calculateShiftHours` (resolvers.ts 66-70): milliseconds between clock-in
and clock-out converted to hours, rounded to 2 decimals. -/
def calculateShiftHours (clockInT clockOutT : ℤ) : ℚ :=
  round2 (((clockOutT - clockInT : ℤ) : ℚ) / 3600000)

/-- `prisma.shift.findFirst({ userId, clockOutTime: null })`: the first open
shift of the worker. -/
def findOpenShift (shifts : List Shift) (userId : ℕ) : Option Shift :=
  shifts.find? (fun s => s.userId == userId && s.clockOutTime.isNone)

def findOrganization (orgs : List Organization) (oid : ℕ) : Option Organization :=
  orgs.find? (fun o => o.id == oid)

/-- The `include: { organization: true }` join: the organization row joined to
the user through `organizationId`. -/
def userOrganization (db : DB) (user : User) : Option Organization :=
  user.organizationId.bind (findOrganization db.organizations)

/-- `Mutation.clockIn` (resolvers.ts 969-1022), with the authenticated user,
the server clock `now` and the client coordinate as inputs.  Returns the
record store after the call together with the typed result; every `throw` in
the source happens before the `prisma.shift.create`, so each error branch
carries the store unchanged. -/
noncomputable def clockIn (db : DB) (user : User) (now : ℤ) (lat lng : ℝ)
    (note : Option String) : DB × Except ClockError Shift :=
  if user.role ≠ UserRole.CARE_WORKER then (db, .error .notCareWorker)
  else
    match findOpenShift db.shifts user.id with
    | some _ => (db, .error .alreadyClockedIn)
    | none =>
      match userOrganization db user with
      | none => (db, .error .organizationNotFound)
      | some org =>
        if isWithinPerimeter lat lng org.locationLat org.locationLng org.perimeterRadius then
          let shift : Shift :=
            { id := db.nextShiftId, userId := user.id, clockInTime := now,
              clockInLat := lat, clockInLng := lng, clockInNote := note,
              clockOutTime := none, clockOutLat := none, clockOutLng := none,
              clockOutNote := none, totalHours := none }
          ({ db with shifts := db.shifts ++ [shift], nextShiftId := db.nextShiftId + 1 },
           .ok shift)
        else (db, .error .outsidePerimeter)

/-- `Mutation.clockOut` (resolvers.ts 1024-1081). -/
noncomputable def clockOut (db : DB) (user : User) (now : ℤ) (lat lng : ℝ)
    (note : Option String) : DB × Except ClockError Shift :=
  if user.role ≠ UserRole.CARE_WORKER then (db, .error .notCareWorker)
  else
    match findOpenShift db.shifts user.id with
    | none => (db, .error .noActiveShift)
    | some currentShift =>
      match userOrganization db user with
      | none => (db, .error .organizationNotFound)
      | some org =>
        if isWithinPerimeter lat lng org.locationLat org.locationLng org.perimeterRadius then
          let closed : Shift :=
            { currentShift with
              clockOutTime := some now, clockOutLat := some lat, clockOutLng := some lng,
              clockOutNote := note,
              totalHours := some (calculateShiftHours currentShift.clockInTime now) }
          ({ db with
             shifts := db.shifts.map (fun s => if s.id == currentShift.id then closed else s) },
           .ok closed)
        else (db, .error .outsidePerimeter)

/-- `Mutation.clockInByAuth0Id` (resolvers.ts 785-836): same state machine but
looked up by auth0 id and with no role check; the source dereferences
`user.organization` without a null check, which a missing organization would
turn into a runtime type error. -/
noncomputable def clockInByAuth0Id (db : DB) (auth0Id : String) (now : ℤ) (lat lng : ℝ)
    (note : Option String) : DB × Except ClockError Shift :=
  match db.users.find? (fun u => u.auth0Id == auth0Id) with
  | none => (db, .error .userNotFound)
  | some user =>
    match findOpenShift db.shifts user.id with
    | some _ => (db, .error .alreadyClockedIn)
    | none =>
      match userOrganization db user with
      | none => (db, .error .nullOrganizationAccess)
      | some org =>
        if isWithinPerimeter lat lng org.locationLat org.locationLng org.perimeterRadius then
          let shift : Shift :=
            { id := db.nextShiftId, userId := user.id, clockInTime := now,
              clockInLat := lat, clockInLng := lng, clockInNote := note,
              clockOutTime := none, clockOutLat := none, clockOutLng := none,
              clockOutNote := none, totalHours := none }
          ({ db with shifts := db.shifts ++ [shift], nextShiftId := db.nextShiftId + 1 },
           .ok shift)
        else (db, .error .outsidePerimeter)

/-- `Mutation.clockOutByAuth0Id` (resolvers.ts 838-892): no role check. -/
noncomputable def clockOutByAuth0Id (db : DB) (auth0Id : String) (now : ℤ) (lat lng : ℝ)
    (note : Option String) : DB × Except ClockError Shift :=
  match db.users.find? (fun u => u.auth0Id == auth0Id) with
  | none => (db, .error .userNotFound)
  | some user =>
    match findOpenShift db.shifts user.id with
    | none => (db, .error .noActiveShift)
    | some currentShift =>
      match userOrganization db user with
      | none => (db, .error .nullOrganizationAccess)
      | some org =>
        if isWithinPerimeter lat lng org.locationLat org.locationLng org.perimeterRadius then
          let closed : Shift :=
            { currentShift with
              clockOutTime := some now, clockOutLat := some lat, clockOutLng := some lng,
              clockOutNote := note,
              totalHours := some (calculateShiftHours currentShift.clockInTime now) }
          ({ db with
             shifts := db.shifts.map (fun s => if s.id == currentShift.id then closed else s) },
           .ok closed)
        else (db, .error .outsidePerimeter)

/-- `Mutation.updatePerimeter` (resolvers.ts 1083-1106): manager-only; writes
the three perimeter fields of the manager's organization with no range
validation on any of them. -/
def updatePerimeter (db : DB) (user : User) (locationLat locationLng perimeterRadius : ℝ) :
    DB × Except ClockError Organization :=
  if user.role ≠ UserRole.MANAGER then (db, .error .notManager)
  else
    match user.organizationId with
    | none => (db, .error .noOrganizationAssigned)
    | some oid =>
      match findOrganization db.organizations oid with
      | none => (db, .error .recordNotFound)
      | some org =>
        let updated : Organization :=
          { org with
            locationLat := locationLat, locationLng := locationLng,
            perimeterRadius := perimeterRadius }
        ({ db with
           organizations := db.organizations.map (fun o => if o.id == oid then updated else o) },
         .ok updated)

/-- `Query.currentShiftByAuth0Id` (resolvers.ts 100-118). -/
def currentShiftByAuth0Id (db : DB) (auth0Id : String) : Except ClockError (Option Shift) :=
  match db.users.find? (fun u => u.auth0Id == auth0Id) with
  | none => .error .userNotFound
  | some user => .ok (findOpenShift db.shifts user.id)

/-! ## Geofence tracker: the client-side `LocationTracker` class -/

structure LocationData where
  lat : ℝ
  lng : ℝ
  timestamp : ℤ
  accuracy : Option ℝ

inductive AlertType
  | ENTERED
  | EXITED
  | AUTO_CLOCK_OUT
deriving DecidableEq, Repr

structure GeofenceAlert where
  userId : String
  alertType : AlertType
  location : LocationData
  timestamp : ℤ

structure CachedLocation extends LocationData where
  synced : Bool
  id : String

/-- The constructor-injected constants of a `LocationTracker`. -/
structure Tracker where
  organizationLat : ℝ
  organizationLng : ℝ
  perimeterRadius : ℝ
  userId : String

/-- The mutable fields of a `LocationTracker` that the sample-processing path
reads and writes. -/
structure TrackerState where
  lastKnownLocation : Option LocationData
  isInsidePerimeter : Bool
  locationCache : List CachedLocation

/-- Field initializers of the `LocationTracker` class: `isInsidePerimeter`
starts `false`, the cache starts empty. -/
def initialTrackerState : TrackerState :=
  { lastKnownLocation := none, isInsidePerimeter := false, locationCache := [] }

def maxCacheSize : ℕ := 100

/-- `cacheLocation`: push the sample (tagged with the connectivity flag and a
fresh entry id), then `slice(-maxCacheSize)` keeps only the newest 100. -/
def cacheLocation (cache : List CachedLocation) (location : LocationData)
    (online : Bool) (entryId : String) : List CachedLocation :=
  let cached : CachedLocation := { location with synced := online, id := entryId }
  let pushed := cache ++ [cached]
  if pushed.length > maxCacheSize then pushed.drop (pushed.length - maxCacheSize)
  else pushed

/-- `checkAutoClockOut`: query `currentShiftByAuth0Id` for the tracked worker;
if an open shift exists, emit an AUTO_CLOCK_OUT alert.  The record store is
only read — no ledger mutation is issued; a failed query is caught and
produces no alert. -/
def checkAutoClockOut (db : DB) (tracker : Tracker) (location : LocationData)
    (now : ℤ) : List GeofenceAlert :=
  match currentShiftByAuth0Id db tracker.userId with
  | .ok (some _) =>
    [{ userId := tracker.userId, alertType := .AUTO_CLOCK_OUT, location := location,
       timestamp := now }]
  | _ => []

/-- `checkGeofence`: compare the prior `isInsidePerimeter` flag with the new
sample's perimeter result, store the new flag, and emit ENTERED on an
outside-to-inside transition or EXITED (followed by the auto-clock-out check)
on an inside-to-outside transition. -/
noncomputable def checkGeofence (db : DB) (tracker : Tracker) (st : TrackerState)
    (location : LocationData) (now : ℤ) : TrackerState × List GeofenceAlert :=
  let wasInsidePerimeter := st.isInsidePerimeter
  let isNowInsidePerimeter : Bool :=
    if isWithinPerimeter location.lat location.lng tracker.organizationLat
        tracker.organizationLng tracker.perimeterRadius then true else false
  let st1 := { st with isInsidePerimeter := isNowInsidePerimeter }
  let enterAlerts : List GeofenceAlert :=
    if !wasInsidePerimeter && isNowInsidePerimeter then
      [{ userId := tracker.userId, alertType := .ENTERED, location := location,
         timestamp := now }]
    else []
  let exitAlerts : List GeofenceAlert :=
    if wasInsidePerimeter && !isNowInsidePerimeter then
      { userId := tracker.userId, alertType := .EXITED, location := location,
        timestamp := now } :: checkAutoClockOut db tracker location now
    else []
  (st1, enterAlerts ++ exitAlerts)

/-- `handleLocationUpdate`: run the geofence check, cache the sample, record
it as the last known location.  The record store is returned so the tracker's
effect on the ledger is explicit: the source only queries it, so it comes
back untouched. -/
noncomputable def handleLocationUpdate (db : DB) (tracker : Tracker) (st : TrackerState)
    (location : LocationData) (now : ℤ) (online : Bool) (entryId : String) :
    DB × TrackerState × List GeofenceAlert :=
  let r := checkGeofence db tracker st location now
  let st2 := { r.1 with locationCache := cacheLocation r.1.locationCache location online entryId }
  let st3 := { st2 with lastKnownLocation := some location }
  (db, st3, r.2)

/-! ## Ledger traces: reachable record-store states -/

/-- One invocation of a shift-ledger mutation, with the arguments supplied by
the transport layer. -/
inductive LedgerOp
  | opClockIn (user : User) (lat lng : ℝ) (note : Option String)
  | opClockOut (user : User) (lat lng : ℝ) (note : Option String)
  | opClockInByAuth0Id (auth0Id : String) (lat lng : ℝ) (note : Option String)
  | opClockOutByAuth0Id (auth0Id : String) (lat lng : ℝ) (note : Option String)
  | opUpdatePerimeter (user : User) (lat lng radius : ℝ)

/-- The record store after a ledger mutation invoked at server time `now`. -/
noncomputable def applyLedgerOp (db : DB) (now : ℤ) : LedgerOp → DB
  | .opClockIn user lat lng note => (clockIn db user now lat lng note).1
  | .opClockOut user lat lng note => (clockOut db user now lat lng note).1
  | .opClockInByAuth0Id auth0Id lat lng note => (clockInByAuth0Id db auth0Id now lat lng note).1
  | .opClockOutByAuth0Id auth0Id lat lng note => (clockOutByAuth0Id db auth0Id now lat lng note).1
  | .opUpdatePerimeter user lat lng radius => (updatePerimeter db user lat lng radius).1

/-- Record stores reachable from seed data (users and organizations, no
shifts) through the ledger mutations, invoked at nondecreasing server times.
The index is the time of the latest invocation. -/
inductive Reachable : ℤ → DB → Prop
  | init (t : ℤ) (users : List User) (orgs : List Organization) :
      Reachable t { users := users, organizations := orgs, shifts := [], nextShiftId := 0 }
  | step {t : ℤ} {db : DB} (op : LedgerOp) (now : ℤ) (hle : t ≤ now)
      (h : Reachable t db) : Reachable now (applyLedgerOp db now op)

/-- Per-shift invariant at trace time `t`: open shifts have no `totalHours`
and started no later than `t`; closed shifts carry the rounded duration. -/
def ShiftInv (t : ℤ) (s : Shift) : Prop :=
  (s.clockOutTime = none → s.totalHours = none ∧ s.clockInTime ≤ t) ∧
  (∀ outT, s.clockOutTime = some outT →
    s.clockInTime ≤ outT ∧ s.totalHours = some (calculateShiftHours s.clockInTime outT))

def DBInv (t : ℤ) (db : DB) : Prop := ∀ s ∈ db.shifts, ShiftInv t s

/-! ## Interleaved clock-in calls

`Mutation.clockIn` touches the record store twice: the `findFirst` read of the
open shift and the `create` write, with no transaction or lock around the
pair.  A call is therefore split at the read: `callStep` performs one store
access at a time, and `runRace` interleaves two concurrent calls for the same
worker under an explicit schedule. -/

inductive CallPhase
  | ready
  | checked (sawOpen : Bool)
  | finished (r : Except ClockError Shift)

/-- One store access of an in-flight `clockIn` call: from `ready` it runs the
role check and the open-shift read; from `checked` it runs the organization
lookup, the perimeter check and (when allowed) the shift creation. -/
noncomputable def callStep (user : User) (now : ℤ) (lat lng : ℝ) (note : Option String) :
    DB → CallPhase → DB × CallPhase
  | db, .ready =>
    if user.role ≠ UserRole.CARE_WORKER then (db, .finished (.error .notCareWorker))
    else (db, .checked (findOpenShift db.shifts user.id).isSome)
  | db, .checked sawOpen =>
    if sawOpen then (db, .finished (.error .alreadyClockedIn))
    else
      match userOrganization db user with
      | none => (db, .finished (.error .organizationNotFound))
      | some org =>
        if isWithinPerimeter lat lng org.locationLat org.locationLng org.perimeterRadius then
          let shift : Shift :=
            { id := db.nextShiftId, userId := user.id, clockInTime := now,
              clockInLat := lat, clockInLng := lng, clockInNote := note,
              clockOutTime := none, clockOutLat := none, clockOutLng := none,
              clockOutNote := none, totalHours := none }
          ({ db with shifts := db.shifts ++ [shift], nextShiftId := db.nextShiftId + 1 },
           .finished (.ok shift))
        else (db, .finished (.error .outsidePerimeter))
  | db, .finished r => (db, .finished r)

inductive RaceThread
  | A
  | B
deriving DecidableEq, Repr

/-- Two in-flight `clockIn` calls for the same worker over one record store. -/
structure RaceState where
  db : DB
  a : CallPhase
  b : CallPhase

noncomputable def raceStep (user : User) (now : ℤ) (lat lng : ℝ) (note : Option String)
    (s : RaceState) : RaceThread → RaceState
  | .A => let r := callStep user now lat lng note s.db s.a
          { s with db := r.1, a := r.2 }
  | .B => let r := callStep user now lat lng note s.db s.b
          { s with db := r.1, b := r.2 }

/-- Run the two calls under the given interleaving schedule. -/
noncomputable def runRace (user : User) (now : ℤ) (lat lng : ℝ) (note : Option String)
    (sched : List RaceThread) (s : RaceState) : RaceState :=
  sched.foldl (raceStep user now lat lng note) s

/-- Count of open shifts a worker holds in the store. -/
def openShiftCount (db : DB) (userId : ℕ) : ℕ :=
  (db.shifts.filter (fun s => s.userId == userId && s.clockOutTime.isNone)).length

/-! ## Concrete fixtures for witnesses and counterexamples -/

def orgA : Organization :=
  { id := 1, name := "Facility A", locationLat := 0, locationLng := 0, perimeterRadius := 100 }

def workerA : User :=
  { id := 1, auth0Id := "worker-1", role := .CARE_WORKER, organizationId := some 1 }

def managerA : User :=
  { id := 2, auth0Id := "manager-1", role := .MANAGER, organizationId := some 1 }

def seedDB : DB :=
  { users := [workerA, managerA], organizations := [orgA], shifts := [], nextShiftId := 0 }

def openShiftA : Shift :=
  { id := 0, userId := 1, clockInTime := 0, clockInLat := 0, clockInLng := 0,
    clockInNote := none, clockOutTime := none, clockOutLat := none, clockOutLng := none,
    clockOutNote := none, totalHours := none }

def dbWithOpenShift : DB := { seedDB with shifts := [openShiftA], nextShiftId := 1 }

/-- The shift expected after clocking in at time 0 and out at time 30600000
(8.5 hours later) at the facility center. -/
def closedShiftA : Shift :=
  { openShiftA with
    clockOutTime := some 30600000, clockOutLat := some 0, clockOutLng := some 0,
    clockOutNote := none, totalHours := some (calculateShiftHours 0 30600000) }

/-- The store reached by a clock-in at time 0 followed by a clock-out at time
30600000, both at the facility center. -/
noncomputable def tracedDB : DB :=
  applyLedgerOp (applyLedgerOp seedDB 0 (.opClockIn workerA 0 0 none)) 30600000
    (.opClockOut workerA 0 0 none)

def trackerA : Tracker :=
  { organizationLat := 40.7128, organizationLng := -74.0060, perimeterRadius := 100,
    userId := "worker-1" }

def sampleAtFacilityA : LocationData :=
  { lat := 40.7128, lng := -74.0060, timestamp := 0, accuracy := none }

def trackerB : Tracker :=
  { organizationLat := 0, organizationLng := 0, perimeterRadius := 100, userId := "worker-1" }

/-- A tracker state whose last sample was inside the perimeter. -/
def insideTrackerState : TrackerState :=
  { lastKnownLocation := none, isInsidePerimeter := true, locationCache := [] }

/-- A sample a quarter of the globe away from `trackerB`'s facility. -/
def sampleFarAway : LocationData :=
  { lat := 0, lng := 180, timestamp := 1000, accuracy := none }

def initRace : RaceState := { db := seedDB, a := .ready, b := .ready }

/-- The shift created by the first of two racing clock-in calls. -/
def raceShiftA : Shift :=
  { id := 0, userId := 1, clockInTime := 5, clockInLat := 0, clockInLng := 0,
    clockInNote := none, clockOutTime := none, clockOutLat := none, clockOutLng := none,
    clockOutNote := none, totalHours := none }

/-- The shift created by the second of two racing clock-in calls. -/
def raceShiftB : Shift := { raceShiftA with id := 1 }

/-! ## Geometry lemmas -/

theorem atan2_zero_one : atan2 0 1 = 0 := by
  unfold atan2
  rw [if_pos one_pos]
  simp [Real.arctan_zero]

theorem atan2_one_zero : atan2 1 0 = Real.pi / 2 := by
  unfold atan2
  norm_num

/-- The Haversine distance from a point to itself is 0. -/
theorem calculateDistance_self (lat lng : ℝ) : calculateDistance lat lng lat lng = 0 := by
  unfold calculateDistance
  simp [sub_self, zero_mul, zero_div, Real.sin_zero, Real.sqrt_zero, Real.sqrt_one,
    atan2_zero_one]

/-- The Haversine distance from `(0, 180)` to `(0, 0)` is half the Earth's
circumference. -/
theorem calculateDistance_far : calculateDistance 0 180 0 0 = 6371000 * Real.pi := by
  unfold calculateDistance
  simp only []
  have h1 : ((0 : ℝ) - 180) * Real.pi / 180 / 2 = -(Real.pi / 2) := by ring
  have h2 : ((0 : ℝ) - 0) * Real.pi / 180 / 2 = 0 := by ring
  have h3 : (0 : ℝ) * Real.pi / 180 = 0 := by ring
  rw [h1, h2, h3]
  simp [Real.sin_zero, Real.cos_zero, Real.sin_neg, Real.sin_pi_div_two, Real.sqrt_one,
    Real.sqrt_zero, atan2_one_zero]
  ring

/-- A worker standing at the facility center is inside any nonnegative
perimeter. -/
theorem isWithinPerimeter_center (lat lng r : ℝ) (h : 0 ≤ r) :
    isWithinPerimeter lat lng lat lng r := by
  unfold isWithinPerimeter
  rw [calculateDistance_self]
  exact h

/-- A worker at `(0, 180)` is outside a 100 m perimeter centered at
`(0, 0)`. -/
theorem not_isWithinPerimeter_far : ¬ isWithinPerimeter 0 180 0 0 100 := by
  unfold isWithinPerimeter
  rw [calculateDistance_far]
  intro h
  nlinarith [Real.pi_gt_three]

/-! ## Rounding lemmas -/

theorem round2_nonneg {q : ℚ} (h : 0 ≤ q) : 0 ≤ round2 q := by
  unfold round2 jsRound
  have : (0 : ℤ) ≤ ⌊q * 100 + 1 / 2⌋ := by
    apply Int.floor_nonneg.mpr
    positivity
  positivity

theorem calculateShiftHours_nonneg {a b : ℤ} (h : a ≤ b) :
    0 ≤ calculateShiftHours a b := by
  unfold calculateShiftHours
  apply round2_nonneg
  have : (0 : ℚ) ≤ ((b - a : ℤ) : ℚ) := by
    exact_mod_cast sub_nonneg.mpr h
  positivity

/-! ## Shift ledger invariant machinery -/

theorem findOpenShift_props {shifts : List Shift} {uid : ℕ} {s : Shift}
    (h : findOpenShift shifts uid = some s) :
    s ∈ shifts ∧ s.userId = uid ∧ s.clockOutTime = none := by
  unfold findOpenShift at h
  have hp := List.find?_some h
  simp only [Bool.and_eq_true, beq_iff_eq, Option.isNone_iff_eq_none] at hp
  exact ⟨List.mem_of_find?_eq_some h, hp.1, hp.2⟩

theorem ShiftInv_mono {t t2 : ℤ} (h : t ≤ t2) {s : Shift} (hs : ShiftInv t s) :
    ShiftInv t2 s :=
  ⟨fun hn => ⟨(hs.1 hn).1, le_trans (hs.1 hn).2 h⟩, hs.2⟩

theorem DBInv_mono {t t2 : ℤ} (h : t ≤ t2) {db : DB} (hdb : DBInv t db) : DBInv t2 db :=
  fun s hs => ShiftInv_mono h (hdb s hs)

/-- A freshly created open shift satisfies the invariant. -/
theorem ShiftInv_new (t now : ℤ) (hle : now ≤ t) (sid uid : ℕ) (lat lng : ℝ)
    (note : Option String) :
    ShiftInv t ({ id := sid, userId := uid, clockInTime := now, clockInLat := lat,
                  clockInLng := lng, clockInNote := note, clockOutTime := none,
                  clockOutLat := none, clockOutLng := none, clockOutNote := none,
                  totalHours := none } : Shift) := by
  constructor
  · exact fun _ => ⟨rfl, hle⟩
  · intro outT hout
    exact Option.noConfusion hout

/-- Closing an open shift at a time no earlier than its clock-in preserves
the invariant. -/
theorem ShiftInv_closed (t now : ℤ) (cur : Shift) (lat lng : ℝ) (note : Option String)
    (hle : cur.clockInTime ≤ now) :
    ShiftInv t ({ cur with
                  clockOutTime := some now, clockOutLat := some lat,
                  clockOutLng := some lng, clockOutNote := note,
                  totalHours := some (calculateShiftHours cur.clockInTime now) } : Shift) := by
  constructor
  · intro hnone
    exact Option.noConfusion hnone
  · intro outT hout
    have hnow : now = outT := Option.some.inj hout
    subst hnow
    exact ⟨hle, rfl⟩

theorem clockIn_preserves_DBInv (db : DB) (user : User) (now : ℤ) (lat lng : ℝ)
    (note : Option String) (hdb : DBInv now db) :
    DBInv now (clockIn db user now lat lng note).1 := by
  unfold clockIn
  by_cases hr : user.role ≠ UserRole.CARE_WORKER
  · rw [if_pos hr]; exact hdb
  · rw [if_neg hr]
    cases hfind : findOpenShift db.shifts user.id with
    | some s => exact hdb
    | none =>
      dsimp only
      cases horg : userOrganization db user with
      | none => exact hdb
      | some org =>
        dsimp only
        by_cases hin : isWithinPerimeter lat lng org.locationLat org.locationLng
          org.perimeterRadius
        · rw [if_pos hin]
          intro s hs
          rcases List.mem_append.mp hs with hs0 | hs1
          · exact hdb s hs0
          · rw [List.mem_singleton.mp hs1]
            exact ShiftInv_new now now le_rfl _ _ _ _ _
        · rw [if_neg hin]; exact hdb

theorem clockOut_preserves_DBInv (db : DB) (user : User) (now : ℤ) (lat lng : ℝ)
    (note : Option String) (hdb : DBInv now db) :
    DBInv now (clockOut db user now lat lng note).1 := by
  unfold clockOut
  by_cases hr : user.role ≠ UserRole.CARE_WORKER
  · rw [if_pos hr]; exact hdb
  · rw [if_neg hr]
    cases hfind : findOpenShift db.shifts user.id with
    | none => exact hdb
    | some cur =>
      dsimp only
      cases horg : userOrganization db user with
      | none => exact hdb
      | some org =>
        dsimp only
        by_cases hin : isWithinPerimeter lat lng org.locationLat org.locationLng
          org.perimeterRadius
        · rw [if_pos hin]
          obtain ⟨hmem, _, hopen⟩ := findOpenShift_props hfind
          have hle : cur.clockInTime ≤ now := ((hdb cur hmem).1 hopen).2
          intro s hs
          rcases List.mem_map.mp hs with ⟨s0, hs0, rfl⟩
          by_cases hid : (s0.id == cur.id) = true
          · rw [if_pos hid]
            exact ShiftInv_closed now now cur lat lng note hle
          · rw [if_neg hid]
            exact hdb s0 hs0
        · rw [if_neg hin]; exact hdb

theorem clockInByAuth0Id_preserves_DBInv (db : DB) (auth0Id : String) (now : ℤ)
    (lat lng : ℝ) (note : Option String) (hdb : DBInv now db) :
    DBInv now (clockInByAuth0Id db auth0Id now lat lng note).1 := by
  unfold clockInByAuth0Id
  cases hu : db.users.find? (fun u => u.auth0Id == auth0Id) with
  | none => exact hdb
  | some user =>
    dsimp only
    cases hfind : findOpenShift db.shifts user.id with
    | some s => exact hdb
    | none =>
      dsimp only
      cases horg : userOrganization db user with
      | none => exact hdb
      | some org =>
        dsimp only
        by_cases hin : isWithinPerimeter lat lng org.locationLat org.locationLng
          org.perimeterRadius
        · rw [if_pos hin]
          intro s hs
          rcases List.mem_append.mp hs with hs0 | hs1
          · exact hdb s hs0
          · rw [List.mem_singleton.mp hs1]
            exact ShiftInv_new now now le_rfl _ _ _ _ _
        · rw [if_neg hin]; exact hdb

theorem clockOutByAuth0Id_preserves_DBInv (db : DB) (auth0Id : String) (now : ℤ)
    (lat lng : ℝ) (note : Option String) (hdb : DBInv now db) :
    DBInv now (clockOutByAuth0Id db auth0Id now lat lng note).1 := by
  unfold clockOutByAuth0Id
  cases hu : db.users.find? (fun u => u.auth0Id == auth0Id) with
  | none => exact hdb
  | some user =>
    dsimp only
    cases hfind : findOpenShift db.shifts user.id with
    | none => exact hdb
    | some cur =>
      dsimp only
      cases horg : userOrganization db user with
      | none => exact hdb
      | some org =>
        dsimp only
        by_cases hin : isWithinPerimeter lat lng org.locationLat org.locationLng
          org.perimeterRadius
        · rw [if_pos hin]
          obtain ⟨hmem, _, hopen⟩ := findOpenShift_props hfind
          have hle : cur.clockInTime ≤ now := ((hdb cur hmem).1 hopen).2
          intro s hs
          rcases List.mem_map.mp hs with ⟨s0, hs0, rfl⟩
          by_cases hid : (s0.id == cur.id) = true
          · rw [if_pos hid]
            exact ShiftInv_closed now now cur lat lng note hle
          · rw [if_neg hid]
            exact hdb s0 hs0
        · rw [if_neg hin]; exact hdb

theorem updatePerimeter_shifts (db : DB) (user : User) (lat lng radius : ℝ) :
    (updatePerimeter db user lat lng radius).1.shifts = db.shifts := by
  unfold updatePerimeter
  by_cases hr : user.role ≠ UserRole.MANAGER
  · rw [if_pos hr]
  · rw [if_neg hr]
    cases user.organizationId with
    | none => rfl
    | some oid =>
      dsimp only
      cases findOrganization db.organizations oid with
      | none => rfl
      | some org => rfl

theorem updatePerimeter_preserves_DBInv (db : DB) (user : User) (lat lng radius : ℝ)
    {t : ℤ} (hdb : DBInv t db) :
    DBInv t (updatePerimeter db user lat lng radius).1 := by
  intro s hs
  rw [updatePerimeter_shifts] at hs
  exact hdb s hs

/-- Every reachable record store satisfies the per-shift invariant. -/
theorem Reachable_DBInv {t : ℤ} {db : DB} (h : Reachable t db) : DBInv t db := by
  induction h with
  | init t users orgs =>
    intro s hs
    exact absurd hs (List.not_mem_nil s)
  | step op now hle hr ih =>
    have hdb := DBInv_mono hle ih
    cases op with
    | opClockIn user lat lng note =>
      exact clockIn_preserves_DBInv _ user now lat lng note hdb
    | opClockOut user lat lng note =>
      exact clockOut_preserves_DBInv _ user now lat lng note hdb
    | opClockInByAuth0Id auth0Id lat lng note =>
      exact clockInByAuth0Id_preserves_DBInv _ auth0Id now lat lng note hdb
    | opClockOutByAuth0Id auth0Id lat lng note =>
      exact clockOutByAuth0Id_preserves_DBInv _ auth0Id now lat lng note hdb
    | opUpdatePerimeter user lat lng radius =>
      exact updatePerimeter_preserves_DBInv _ user lat lng radius hdb

/-! ## C7: perimeter membership is inclusive distance comparison -/

/-- C7: `isWithinPerimeter(p, c)` holds exactly when the Haversine distance
from `p` to the center is at most the radius; the boundary is included, so a
point at distance exactly `radiusMeters` is inside. -/
theorem isWithinPerimeter_iff_distance_le
    (userLat userLng facilityLat facilityLng radius : ℝ) :
    (isWithinPerimeter userLat userLng facilityLat facilityLng radius ↔
      calculateDistance userLat userLng facilityLat facilityLng ≤ radius) ∧
    (calculateDistance userLat userLng facilityLat facilityLng = radius →
      isWithinPerimeter userLat userLng facilityLat facilityLng radius) := by
  refine ⟨Iff.rfl, fun h => ?_⟩
  unfold isWithinPerimeter
  exact le_of_eq h

/-- Witness for C7 at a concrete boundary point: distance 0, radius 0. -/
theorem isWithinPerimeter_iff_distance_le_witness : isWithinPerimeter 0 0 0 0 0 :=
  (isWithinPerimeter_iff_distance_le 0 0 0 0 0).2 (calculateDistance_self 0 0)

/-! ## C2: behavior on the first processed sample -/

/-- C2 (amended): the tracker starts with `isInsidePerimeter = false`, i.e.
in the OUTSIDE state, not in an unknown state.  The first processed sample
therefore fires ENTERED exactly when it lies inside the perimeter, never
fires EXITED or AUTO_CLOCK_OUT, and the state becomes whatever
`isWithinPerimeter` returns for the sample. -/
theorem checkGeofence_first_sample (db : DB) (tracker : Tracker)
    (location : LocationData) (now : ℤ) :
    ((checkGeofence db tracker initialTrackerState location now).1.isInsidePerimeter = true ↔
      isWithinPerimeter location.lat location.lng tracker.organizationLat
        tracker.organizationLng tracker.perimeterRadius) ∧
    (∀ a ∈ (checkGeofence db tracker initialTrackerState location now).2,
      a.alertType = AlertType.ENTERED) ∧
    ((checkGeofence db tracker initialTrackerState location now).2 ≠ [] ↔
      isWithinPerimeter location.lat location.lng tracker.organizationLat
        tracker.organizationLng tracker.perimeterRadius) := by
  by_cases h : isWithinPerimeter location.lat location.lng tracker.organizationLat
      tracker.organizationLng tracker.perimeterRadius
  · simp [checkGeofence, initialTrackerState, h]
  · simp [checkGeofence, initialTrackerState, h]

/-- C2 counterexample: the claim says no event fires for the first sample,
but a first sample at the facility center produces an ENTERED alert, because
the tracker initializes `isInsidePerimeter` to `false` rather than to an
unknown state. -/
theorem checkGeofence_first_sample_inside_fires :
    (checkGeofence seedDB trackerA initialTrackerState sampleAtFacilityA 0).2 =
      [{ userId := "worker-1", alertType := AlertType.ENTERED,
         location := sampleAtFacilityA, timestamp := 0 }] := by
  have h : isWithinPerimeter 40.7128 (-74.0060) 40.7128 (-74.0060) 100 :=
    isWithinPerimeter_center _ _ _ (by norm_num)
  simp [checkGeofence, initialTrackerState, trackerA, sampleAtFacilityA, h]

/-! ## C5: geofence exit only notifies, never closes the shift -/

/-- C5: when a sample moves the tracker from inside to outside, the handler
emits EXITED and then, because the worker holds an open shift, AUTO_CLOCK_OUT;
the record store comes back from the handler untouched, so the shift is still
open afterwards — the tracker never invokes `clockOut`. -/
theorem tracker_exit_notifies_only (db : DB) (tracker : Tracker) (st : TrackerState)
    (location : LocationData) (now : ℤ) (online : Bool) (entryId : String) (sh : Shift)
    (hInside : st.isInsidePerimeter = true)
    (hOutside : ¬ isWithinPerimeter location.lat location.lng tracker.organizationLat
      tracker.organizationLng tracker.perimeterRadius)
    (hOpen : currentShiftByAuth0Id db tracker.userId = .ok (some sh)) :
    (handleLocationUpdate db tracker st location now online entryId).2.2 =
      [{ userId := tracker.userId, alertType := AlertType.EXITED, location := location,
         timestamp := now },
       { userId := tracker.userId, alertType := AlertType.AUTO_CLOCK_OUT,
         location := location, timestamp := now }] ∧
    (handleLocationUpdate db tracker st location now online entryId).1 = db ∧
    currentShiftByAuth0Id
      (handleLocationUpdate db tracker st location now online entryId).1 tracker.userId =
      .ok (some sh) := by
  unfold handleLocationUpdate checkGeofence checkAutoClockOut
  simp [hInside, hOutside, hOpen]

/-- Witness for C5: a worker with an open shift, tracked inside, submits a
sample far outside the perimeter. -/
theorem tracker_exit_notifies_only_witness :
    (handleLocationUpdate dbWithOpenShift trackerB insideTrackerState sampleFarAway 1000
        true "entry-1").2.2 =
      [{ userId := trackerB.userId, alertType := AlertType.EXITED,
         location := sampleFarAway, timestamp := 1000 },
       { userId := trackerB.userId, alertType := AlertType.AUTO_CLOCK_OUT,
         location := sampleFarAway, timestamp := 1000 }] ∧
    (handleLocationUpdate dbWithOpenShift trackerB insideTrackerState sampleFarAway 1000
        true "entry-1").1 = dbWithOpenShift ∧
    currentShiftByAuth0Id
      (handleLocationUpdate dbWithOpenShift trackerB insideTrackerState sampleFarAway 1000
        true "entry-1").1 trackerB.userId = .ok (some openShiftA) :=
  tracker_exit_notifies_only dbWithOpenShift trackerB insideTrackerState sampleFarAway 1000
    true "entry-1" openShiftA rfl not_isWithinPerimeter_far (by rfl)

/-! ## C8: the recency buffer is append-only, capped at 100, oldest-evicted -/

/-- C8: `cacheLocation` appends the sample to the buffer and, when the cap of
100 entries is exceeded, evicts from the front: the result is exactly the
newest suffix of `cache ++ [entry]`, its length stays at most 100, and the
new entry is always its last element. -/
theorem cacheLocation_spec (cache : List CachedLocation) (location : LocationData)
    (online : Bool) (entryId : String) (h : cache.length ≤ maxCacheSize) :
    cacheLocation cache location online entryId =
      (cache ++ [({ location with synced := online, id := entryId } : CachedLocation)]).drop
        (cache.length + 1 - maxCacheSize) ∧
    (cacheLocation cache location online entryId).length ≤ maxCacheSize ∧
    (cacheLocation cache location online entryId).getLast? =
      some ({ location with synced := online, id := entryId } : CachedLocation) := by
  unfold cacheLocation
  unfold maxCacheSize at h ⊢
  simp only [List.length_append, List.length_singleton]
  by_cases hlen : cache.length + 1 > 100
  · rw [if_pos hlen]
    refine ⟨rfl, ?_, ?_⟩
    · simp only [List.length_drop, List.length_append, List.length_singleton]
      omega
    · rw [List.drop_append_of_le_length (by omega)]
      simp [List.getLast?_concat]
  · rw [if_neg hlen]
    have hz : cache.length + 1 - 100 = 0 := by omega
    rw [hz, List.drop_zero]
    exact ⟨rfl, by simp only [List.length_append, List.length_singleton]; omega,
      by simp [List.getLast?_concat]⟩

/-! ## C4: clockIn failure modes and their frame condition -/

/-- C4: for a care worker, `clockIn` fails with AlreadyClockedIn whenever an
open shift exists, fails with OutsidePerimeter whenever (the earlier checks
passing) the coordinate is outside the organization perimeter, and every
failure leaves the record store — in particular the stored shifts —
unchanged. -/
theorem clockIn_failure_modes (db : DB) (user : User) (now : ℤ) (lat lng : ℝ)
    (note : Option String) (hrole : user.role = UserRole.CARE_WORKER) :
    ((findOpenShift db.shifts user.id).isSome = true →
      clockIn db user now lat lng note = (db, .error .alreadyClockedIn)) ∧
    (∀ org, findOpenShift db.shifts user.id = none →
      userOrganization db user = some org →
      ¬ isWithinPerimeter lat lng org.locationLat org.locationLng org.perimeterRadius →
      clockIn db user now lat lng note = (db, .error .outsidePerimeter)) ∧
    (∀ e, (clockIn db user now lat lng note).2 = .error e →
      (clockIn db user now lat lng note).1 = db) := by
  refine ⟨?_, ?_, ?_⟩
  · intro hs
    rcases Option.isSome_iff_exists.mp hs with ⟨s, hfind⟩
    simp [clockIn, hrole, hfind]
  · intro org h1 h2 h3
    simp [clockIn, hrole, h1, h2, h3]
  · intro e
    unfold clockIn
    rcases hr : user.role with _ | _
    · simp [hr]
    · simp only [hr]
      cases hfind : findOpenShift db.shifts user.id with
      | some s => simp
      | none =>
        cases horg : userOrganization db user with
        | none => simp
        | some org =>
          by_cases hin : isWithinPerimeter lat lng org.locationLat org.locationLng
            org.perimeterRadius
          · simp [hin]
          · simp [hin]

/-- Witness for C4: a worker with an open shift is rejected with
AlreadyClockedIn, and a worker far outside the perimeter is rejected with
OutsidePerimeter; the store is returned unchanged in both cases. -/
theorem clockIn_failure_modes_witness :
    clockIn dbWithOpenShift workerA 5 0 0 none =
      (dbWithOpenShift, .error .alreadyClockedIn) ∧
    clockIn seedDB workerA 5 0 180 none = (seedDB, .error .outsidePerimeter) :=
  ⟨(clockIn_failure_modes dbWithOpenShift workerA 5 0 0 none rfl).1 rfl,
   (clockIn_failure_modes seedDB workerA 5 0 180 none rfl).2.1 orgA rfl rfl
     not_isWithinPerimeter_far⟩

/-! ## C6: clockOut failure modes -/

/-- C6: for a care worker, `clockOut` fails with NoActiveShift whenever no
open shift exists, and fails with OutsidePerimeter whenever the perimeter
check re-evaluated at the clock-out coordinate is false — in which case the
store is unchanged and the shift stays open. -/
theorem clockOut_failure_modes (db : DB) (user : User) (now : ℤ) (lat lng : ℝ)
    (note : Option String) (hrole : user.role = UserRole.CARE_WORKER) :
    (findOpenShift db.shifts user.id = none →
      clockOut db user now lat lng note = (db, .error .noActiveShift)) ∧
    (∀ sh org, findOpenShift db.shifts user.id = some sh →
      userOrganization db user = some org →
      ¬ isWithinPerimeter lat lng org.locationLat org.locationLng org.perimeterRadius →
      clockOut db user now lat lng note = (db, .error .outsidePerimeter) ∧
      findOpenShift (clockOut db user now lat lng note).1.shifts user.id = some sh) := by
  constructor
  · intro h
    simp [clockOut, hrole, h]
  · intro sh org h1 h2 h3
    have heq : clockOut db user now lat lng note = (db, .error .outsidePerimeter) := by
      simp [clockOut, hrole, h1, h2, h3]
    exact ⟨heq, by rw [heq]; exact h1⟩

/-- Witness for C6: with no open shift, clock-out fails with NoActiveShift;
with an open shift but a far-away coordinate, it fails with OutsidePerimeter
and the shift remains open. -/
theorem clockOut_failure_modes_witness :
    clockOut seedDB workerA 5 0 0 none = (seedDB, .error .noActiveShift) ∧
    (clockOut dbWithOpenShift workerA 5 0 180 none =
      (dbWithOpenShift, .error .outsidePerimeter) ∧
     findOpenShift (clockOut dbWithOpenShift workerA 5 0 180 none).1.shifts workerA.id =
      some openShiftA) :=
  ⟨(clockOut_failure_modes seedDB workerA 5 0 0 none rfl).1 rfl,
   (clockOut_failure_modes dbWithOpenShift workerA 5 0 180 none rfl).2 openShiftA orgA rfl
     rfl not_isWithinPerimeter_far⟩

/-! ## C9: the context-authenticated mutations demand the CARE_WORKER role -/

/-- C9: `clockIn` and `clockOut` reject any caller whose role is not
CARE_WORKER before touching the perimeter check or the store — for every
store and every coordinate the result is the role error with the store
unchanged — while the parallel `clockInByAuth0Id` variant enforces no such
precondition: a manager clock-in through it succeeds. -/
theorem clock_mutations_role_gate :
    (∀ (db : DB) (user : User) (now : ℤ) (lat lng : ℝ) (note : Option String),
      user.role ≠ UserRole.CARE_WORKER →
      clockIn db user now lat lng note = (db, .error .notCareWorker) ∧
      clockOut db user now lat lng note = (db, .error .notCareWorker)) ∧
    (clockInByAuth0Id seedDB "manager-1" 7 0 0 none).2 =
      .ok { id := 0, userId := 2, clockInTime := 7, clockInLat := 0, clockInLng := 0,
            clockInNote := none, clockOutTime := none, clockOutLat := none,
            clockOutLng := none, clockOutNote := none, totalHours := none } := by
  constructor
  · intro db user now lat lng note h
    exact ⟨by simp [clockIn, h], by simp [clockOut, h]⟩
  · have hfind : seedDB.users.find? (fun u => u.auth0Id == "manager-1") = some managerA := by
      rfl
    have hopen : findOpenShift seedDB.shifts 2 = none := rfl
    have horg : userOrganization seedDB managerA = some orgA := rfl
    have hin : isWithinPerimeter 0 0 orgA.locationLat orgA.locationLng orgA.perimeterRadius :=
      isWithinPerimeter_center 0 0 100 (by norm_num)
    have hid : managerA.id = 2 := rfl
    have hnext : seedDB.nextShiftId = 0 := rfl
    simp only [clockInByAuth0Id, hfind, hopen, horg, hin, if_true, hid, hnext]

/-- Witness for C9: a manager is rejected by the context-authenticated
mutations. -/
theorem clock_mutations_role_gate_witness :
    clockIn seedDB managerA 7 0 0 none = (seedDB, .error .notCareWorker) ∧
    clockOut seedDB managerA 7 0 0 none = (seedDB, .error .notCareWorker) :=
  clock_mutations_role_gate.1 seedDB managerA 7 0 0 none (by decide)

/-! ## C10: updatePerimeter writes exactly the three perimeter fields -/

/-- C10: a successful `updatePerimeter` by a manager rewrites only the
organization's `locationLat`, `locationLng` and `perimeterRadius` to the
supplied values — for arbitrary real inputs, with no range validation — and
leaves the organization's other fields, every other organization, all shifts,
all users and the id counter unchanged. -/
theorem updatePerimeter_spec (db : DB) (user : User) (lat lng radius : ℝ) (oid : ℕ)
    (org : Organization) (hrole : user.role = UserRole.MANAGER)
    (hoid : user.organizationId = some oid)
    (horg : findOrganization db.organizations oid = some org) :
    updatePerimeter db user lat lng radius =
      ({ db with organizations := db.organizations.map (fun o =>
          if o.id == oid then
            { org with locationLat := lat, locationLng := lng, perimeterRadius := radius }
          else o) },
       .ok { org with locationLat := lat, locationLng := lng, perimeterRadius := radius }) ∧
    (updatePerimeter db user lat lng radius).1.shifts = db.shifts ∧
    (updatePerimeter db user lat lng radius).1.users = db.users ∧
    (updatePerimeter db user lat lng radius).1.nextShiftId = db.nextShiftId ∧
    (∀ o ∈ db.organizations, o.id ≠ oid →
      o ∈ (updatePerimeter db user lat lng radius).1.organizations) ∧
    ({ org with locationLat := lat, locationLng := lng, perimeterRadius := radius }
      : Organization).id = org.id ∧
    ({ org with locationLat := lat, locationLng := lng, perimeterRadius := radius }
      : Organization).name = org.name := by
  have heq : updatePerimeter db user lat lng radius =
      ({ db with organizations := db.organizations.map (fun o =>
          if o.id == oid then
            { org with locationLat := lat, locationLng := lng, perimeterRadius := radius }
          else o) },
       .ok { org with locationLat := lat, locationLng := lng, perimeterRadius := radius }) := by
    simp [updatePerimeter, hrole, hoid, horg]
  refine ⟨heq, by rw [heq], by rw [heq], by rw [heq], ?_, rfl, rfl⟩
  intro o ho hne
  rw [heq]
  refine List.mem_map.mpr ⟨o, ho, ?_⟩
  simp [hne]

/-- Witness for C10: a manager stores an out-of-range latitude, longitude and
a negative radius verbatim; shifts and users are untouched. -/
theorem updatePerimeter_spec_witness :
    updatePerimeter seedDB managerA 123 456 (-5) =
      ({ seedDB with organizations := seedDB.organizations.map (fun o =>
          if o.id == 1 then
            { orgA with locationLat := 123, locationLng := 456, perimeterRadius := -5 }
          else o) },
       .ok { orgA with locationLat := 123, locationLng := 456, perimeterRadius := -5 }) ∧
    (updatePerimeter seedDB managerA 123 456 (-5)).1.shifts = seedDB.shifts ∧
    (updatePerimeter seedDB managerA 123 456 (-5)).1.users = seedDB.users := by
  have h := updatePerimeter_spec seedDB managerA 123 456 (-5) 1 orgA rfl rfl rfl
  exact ⟨h.1, h.2.1, h.2.2.1⟩

/-! ## C3: totalHours is set iff clockOut is set, with the rounded value -/

/-- C3: in every reachable record store, a shift's `totalHours` is set if and
only if its `clockOut` is set, and when set it equals
`round((clockOut.time − clockIn.time) / 3600000, 2)` — milliseconds converted
to hours, rounded to 2 decimal places — and is nonnegative. -/
theorem shift_totalHours_correct {t : ℤ} {db : DB} (h : Reachable t db) :
    ∀ s ∈ db.shifts,
      (s.totalHours.isSome ↔ s.clockOutTime.isSome) ∧
      (∀ outT, s.clockOutTime = some outT →
        s.totalHours = some (round2 (((outT - s.clockInTime : ℤ) : ℚ) / 3600000)) ∧
        ∀ q, s.totalHours = some q → 0 ≤ q) := by
  intro s hs
  obtain ⟨h1, h2⟩ := Reachable_DBInv h s hs
  constructor
  · cases hco : s.clockOutTime with
    | none => simp [(h1 hco).1, hco]
    | some outT => simp [(h2 outT hco).2, hco]
  · intro outT hout
    obtain ⟨hle, hth⟩ := h2 outT hout
    refine ⟨hth, ?_⟩
    intro q hq
    rw [hth] at hq
    exact Option.some.inj hq ▸ calculateShiftHours_nonneg hle

/-- The two-operation trace produces exactly the closed 8.5-hour shift. -/
theorem tracedDB_shifts : tracedDB.shifts = [closedShiftA] := by
  have hin : isWithinPerimeter 0 0 orgA.locationLat orgA.locationLng orgA.perimeterRadius :=
    isWithinPerimeter_center 0 0 100 (by norm_num)
  have h1 : clockIn seedDB workerA 0 0 0 none =
      ({ seedDB with shifts := [openShiftA], nextShiftId := 1 }, .ok openShiftA) := by
    unfold clockIn
    rw [if_neg (by decide : ¬ (workerA.role ≠ UserRole.CARE_WORKER))]
    rw [show findOpenShift seedDB.shifts workerA.id = none from rfl]
    dsimp only
    rw [show userOrganization seedDB workerA = some orgA from rfl]
    dsimp only
    rw [if_pos hin]
    rfl
  have h2 : clockOut { seedDB with shifts := [openShiftA], nextShiftId := 1 } workerA
      30600000 0 0 none =
      ({ seedDB with shifts := [closedShiftA], nextShiftId := 1 }, .ok closedShiftA) := by
    unfold clockOut
    rw [if_neg (by decide : ¬ (workerA.role ≠ UserRole.CARE_WORKER))]
    rw [show findOpenShift ({ seedDB with shifts := [openShiftA], nextShiftId := 1 } :
      DB).shifts workerA.id = some openShiftA from rfl]
    dsimp only
    rw [show userOrganization { seedDB with shifts := [openShiftA], nextShiftId := 1 }
      workerA = some orgA from rfl]
    dsimp only
    rw [if_pos hin]
    rfl
  have e1 : applyLedgerOp seedDB 0 (.opClockIn workerA 0 0 none) =
      { seedDB with shifts := [openShiftA], nextShiftId := 1 } := by
    show (clockIn seedDB workerA 0 0 0 none).1 = _
    rw [h1]
  have e2 : tracedDB = { seedDB with shifts := [closedShiftA], nextShiftId := 1 } := by
    show (clockOut (applyLedgerOp seedDB 0 (.opClockIn workerA 0 0 none)) workerA
      30600000 0 0 none).1 = _
    rw [e1, h2]
  rw [e2]

theorem tracedDB_reachable : Reachable 30600000 tracedDB := by
  have h0 : Reachable 0 seedDB := Reachable.init 0 [workerA, managerA] [orgA]
  have hstep1 := Reachable.step (.opClockIn workerA 0 0 none) 0 le_rfl h0
  exact Reachable.step (.opClockOut workerA 0 0 none) 30600000 (by norm_num) hstep1

/-- Witness for C3: the shift clocked in at time 0 and out 8.5 hours later
carries `totalHours = 8.5`, the rounded millisecond difference. -/
theorem shift_totalHours_correct_witness :
    (closedShiftA.totalHours.isSome ↔ closedShiftA.clockOutTime.isSome) ∧
    closedShiftA.totalHours =
      some (round2 (((30600000 - closedShiftA.clockInTime : ℤ) : ℚ) / 3600000)) ∧
    closedShiftA.totalHours = some (17 / 2) := by
  have hmem : closedShiftA ∈ tracedDB.shifts := by
    rw [tracedDB_shifts]
    exact List.mem_singleton.mpr rfl
  have h := shift_totalHours_correct tracedDB_reachable closedShiftA hmem
  refine ⟨h.1, (h.2 30600000 rfl).1, ?_⟩
  have hval : calculateShiftHours 0 30600000 = 17 / 2 := by
    unfold calculateShiftHours round2 jsRound
    rw [show ((30600000 - 0 : ℤ) : ℚ) / 3600000 * 100 + 1 / 2 = 1701 / 2 by norm_num]
    rw [show ⌊(1701 / 2 : ℚ)⌋ = 850 from Int.floor_eq_iff.mpr (by norm_num)]
    norm_num
  rw [show closedShiftA.totalHours = some (calculateShiftHours 0 30600000) from rfl, hval]

/-! ## C1: two concurrent clock-in calls for the same worker -/

/-- Running the two store accesses of one `clockIn` call back to back is the
sequential `clockIn`: the split into `callStep` phases refines the resolver. -/
theorem callStep_refines_clockIn (db : DB) (user : User) (now : ℤ) (lat lng : ℝ)
    (note : Option String) :
    callStep user now lat lng note
        (callStep user now lat lng note db .ready).1
        (callStep user now lat lng note db .ready).2 =
      ((clockIn db user now lat lng note).1,
       CallPhase.finished (clockIn db user now lat lng note).2) := by
  by_cases hr : user.role ≠ UserRole.CARE_WORKER
  · have h0 : callStep user now lat lng note db .ready =
        (db, .finished (.error .notCareWorker)) := by
      unfold callStep
      dsimp only
      rw [if_pos hr]
    rw [h0]
    unfold clockIn
    rw [if_pos hr]
    rfl
  · have h0 : callStep user now lat lng note db .ready =
        (db, .checked (findOpenShift db.shifts user.id).isSome) := by
      unfold callStep
      dsimp only
      rw [if_neg hr]
    rw [h0]
    unfold clockIn callStep
    rw [if_neg hr]
    dsimp only
    cases hfind : findOpenShift db.shifts user.id with
    | some s => rfl
    | none =>
      dsimp only
      cases horg : userOrganization db user with
      | none => rfl
      | some org =>
        dsimp only
        by_cases hin : isWithinPerimeter lat lng org.locationLat org.locationLng
          org.perimeterRadius
        · rw [if_pos hin, if_pos hin]
          rfl
        · rw [if_neg hin, if_neg hin]
          rfl

/-- C1 evidence: under the interleaving check-A, check-B, create-A, create-B
of two concurrent `clockIn` calls for the same care worker standing inside
the perimeter, both calls return a created shift and the worker ends the race
with two open shifts: the open-shift check and the shift creation are not
atomic, so the claimed mutual exclusion does not hold in the code. -/
theorem clockIn_race_both_succeed :
    (runRace workerA 5 0 0 none [RaceThread.A, RaceThread.B, RaceThread.A, RaceThread.B]
        initRace).a = CallPhase.finished (.ok raceShiftA) ∧
    (runRace workerA 5 0 0 none [RaceThread.A, RaceThread.B, RaceThread.A, RaceThread.B]
        initRace).b = CallPhase.finished (.ok raceShiftB) ∧
    (runRace workerA 5 0 0 none [RaceThread.A, RaceThread.B, RaceThread.A, RaceThread.B]
        initRace).db.shifts = [raceShiftA, raceShiftB] ∧
    openShiftCount
      (runRace workerA 5 0 0 none [RaceThread.A, RaceThread.B, RaceThread.A, RaceThread.B]
        initRace).db workerA.id = 2 := by
  have hin : isWithinPerimeter 0 0 orgA.locationLat orgA.locationLng orgA.perimeterRadius :=
    isWithinPerimeter_center 0 0 100 (by norm_num)
  have hc : ∀ db : DB, callStep workerA 5 0 0 none db .ready =
      (db, .checked (findOpenShift db.shifts workerA.id).isSome) := by
    intro db
    unfold callStep
    dsimp only
    rw [if_neg (by decide : ¬ (workerA.role ≠ UserRole.CARE_WORKER))]
  have hcr1 : callStep workerA 5 0 0 none seedDB (.checked false) =
      ({ seedDB with shifts := [raceShiftA], nextShiftId := 1 },
       .finished (.ok raceShiftA)) := by
    unfold callStep
    dsimp only
    rw [show userOrganization seedDB workerA = some orgA from rfl]
    dsimp only
    rw [if_pos hin]
    rfl
  have hcr2 : callStep workerA 5 0 0 none
      { seedDB with shifts := [raceShiftA], nextShiftId := 1 } (.checked false) =
      ({ seedDB with shifts := [raceShiftA, raceShiftB], nextShiftId := 2 },
       .finished (.ok raceShiftB)) := by
    unfold callStep
    dsimp only
    rw [show userOrganization { seedDB with shifts := [raceShiftA], nextShiftId := 1 }
      workerA = some orgA from rfl]
    dsimp only
    rw [if_pos hin]
    rfl
  have e1 : raceStep workerA 5 0 0 none initRace RaceThread.A =
      { db := seedDB, a := .checked false, b := .ready } := by
    unfold raceStep initRace
    dsimp only
    rw [hc seedDB]
    rfl
  have e2 : raceStep workerA 5 0 0 none
      { db := seedDB, a := .checked false, b := .ready } RaceThread.B =
      { db := seedDB, a := .checked false, b := .checked false } := by
    unfold raceStep
    dsimp only
    rw [hc seedDB]
    rfl
  have e3 : raceStep workerA 5 0 0 none
      { db := seedDB, a := .checked false, b := .checked false } RaceThread.A =
      { db := { seedDB with shifts := [raceShiftA], nextShiftId := 1 },
        a := .finished (.ok raceShiftA), b := .checked false } := by
    unfold raceStep
    dsimp only
    rw [hcr1]
  have e4 : raceStep workerA 5 0 0 none
      { db := { seedDB with shifts := [raceShiftA], nextShiftId := 1 },
        a := .finished (.ok raceShiftA), b := .checked false } RaceThread.B =
      { db := { seedDB with shifts := [raceShiftA, raceShiftB], nextShiftId := 2 },
        a := .finished (.ok raceShiftA), b := .finished (.ok raceShiftB) } := by
    unfold raceStep
    dsimp only
    rw [hcr2]
  have hrun : runRace workerA 5 0 0 none
      [RaceThread.A, RaceThread.B, RaceThread.A, RaceThread.B] initRace =
      { db := { seedDB with shifts := [raceShiftA, raceShiftB], nextShiftId := 2 },
        a := .finished (.ok raceShiftA), b := .finished (.ok raceShiftB) } := by
    unfold runRace
    simp only [List.foldl]
    rw [e1, e2, e3, e4]
  rw [hrun]
  refine ⟨rfl, rfl, rfl, ?_⟩
  rfl

/-- Witness for C8: caching a sample into an empty buffer. -/
theorem cacheLocation_spec_witness :
    cacheLocation [] sampleAtFacilityA true "entry-1" =
      (([] : List CachedLocation) ++
        [({ sampleAtFacilityA with synced := true, id := "entry-1" } : CachedLocation)]).drop
        (List.length ([] : List CachedLocation) + 1 - maxCacheSize) ∧
    (cacheLocation [] sampleAtFacilityA true "entry-1").length ≤ maxCacheSize ∧
    (cacheLocation [] sampleAtFacilityA true "entry-1").getLast? =
      some ({ sampleAtFacilityA with synced := true, id := "entry-1" } : CachedLocation) :=
  cacheLocation_spec [] sampleAtFacilityA true "entry-1" (by decide)

end MediClock
